import Mathlib

/-!
Verification of the scan-terminal request/response core.

Shallow embedding of the resilient request/response core of the warehouse
terminal front-end: code classification (`validateScannedCode`), the
retrying request executor (`makeRequestWithRetries` / `shouldRetry`), the
response normalizer (`processResponse`), the error translator
(`translateError`) and the scan-history update of the scan orchestrator
(`ScanContext.processScan`).

Strings that the code inspects character by character are modelled as
`List Char`; user-facing message text is kept as `String`.
-/

namespace JsPrim

/-- JavaScript `a || b` for a possibly absent / possibly empty string `a`
(`undefined` and `""` are falsy) with a string fallback `b`. -/
def jsOrStr (a : Option String) (b : String) : String :=
  match a with
  | some s => if s = "" then b else s
  | none => b

/-- JavaScript `a || b` for two possibly absent strings. -/
def jsOrOpt (a b : Option String) : Option String :=
  match a with
  | some s => if s = "" then b else some s
  | none => b

/-- Truthiness of a possibly absent string. -/
def jsTruthy : Option String → Bool
  | some s => !(s == "")
  | none => false

/-- Containment of `pat` in a character list, as JavaScript
`String.prototype.includes`. -/
def containsSub (pat : List Char) : List Char → Bool
  | [] => pat.isEmpty
  | c :: t => pat.isPrefixOf (c :: t) || containsSub pat t

/-- JavaScript `s.includes(pat)` on the underlying character data. -/
def strIncludes (s pat : String) : Bool :=
  containsSub pat.data s.data

/-- JavaScript `String.prototype.trim`: drop whitespace from both ends. -/
def trimChars (l : List Char) : List Char :=
  List.rdropWhile Char.isWhitespace (l.dropWhile Char.isWhitespace)

/-- The character class `\d` of the regexes in the validator. -/
def isAllDigits (l : List Char) : Bool := l.all Char.isDigit

/-- The test `/^\d{n}$/.test s`: exactly `n` characters, all digits. -/
def digitTest (n : Nat) (l : List Char) : Bool :=
  l.length == n && isAllDigits l

end JsPrim

namespace Classifier

open JsPrim

/-- Entity type resolved by the classifier (box or pallet). -/
inductive CodeType
  | box
  | pallet
deriving DecidableEq, Repr

/-- Structure `CodeValidationResult` from `src/api/types.ts`:
an `isValid` flag, an optional entity type, an optional error message. -/
structure CodeValidationResult where
  isValid : Bool
  type : Option CodeType := none
  errorMessage : Option String := none
deriving DecidableEq, Repr

/-- Function `isValidBoxCode` (code-utils module): falsy or non-string input is
rejected, otherwise the trimmed input must match `/^\d{15}$/`. -/
def isValidBoxCode (code : List Char) : Bool :=
  if code.isEmpty then false
  else digitTest 15 (trimChars code)

/-- Function `isValidPalletCode`: the trimmed input must match the pallet regex.
The pallet length is the versioned configuration constant (12 digits in
one revision of the module, 14 in the other); it is taken as a parameter
and instantiated at both observed values. -/
def isValidPalletCode (palletLen : Nat) (code : List Char) : Bool :=
  if code.isEmpty then false
  else digitTest palletLen (trimChars code)

/-- The `UNRECOGNIZED_FORMAT` message of `validateScannedCode`; for
`palletLen = 12` and `palletLen = 14` this is literally the string in the
respective source revision. -/
def unrecognizedMsg (palletLen : Nat) : String :=
  "El código debe ser válido: código de caja (15 dígitos) o código de pallet ("
    ++ toString palletLen ++ " dígitos)"

/-- Function `validateScannedCode` from the code-utils module, parameterized by the
configured pallet length (12 or 14 across the observed revisions; the box
length is 15 in both). -/
def validateScannedCode (palletLen : Nat) (code : List Char) : CodeValidationResult :=
  if code.isEmpty then
    { isValid := false, errorMessage := some "El código es requerido" }
  else
    let cleanCode := trimChars code
    if cleanCode.isEmpty then
      { isValid := false, errorMessage := some "El código no puede estar vacío" }
    else if isValidBoxCode cleanCode then
      { isValid := true, type := some CodeType.box }
    else if isValidPalletCode palletLen cleanCode then
      { isValid := true, type := some CodeType.pallet }
    else
      { isValid := false, errorMessage := some (unrecognizedMsg palletLen) }

/-- Function `sanitizeCode`: remove all non-digit characters (the global
replace of the non-digit class with the empty string), with the
falsy-input guard. -/
def sanitizeCode (code : List Char) : List Char :=
  if code.isEmpty then [] else code.filter Char.isDigit

end Classifier

section TrimLemmas

open JsPrim

theorem digit_not_whitespace (c : Char) (h : c.isDigit = true) :
    c.isWhitespace = false := by
  simp only [Char.isDigit, Bool.and_eq_true, decide_eq_true_eq] at h
  obtain ⟨h1, h2⟩ := h
  simp only [Char.isWhitespace, Bool.or_eq_false_iff, decide_eq_false_iff_not]
  refine ⟨⟨⟨?_, ?_⟩, ?_⟩, ?_⟩ <;> intro hc <;> rw [hc] at h1 h2 <;>
    revert h1 h2 <;> decide

theorem trimChars_head_not_ws (l : List Char) (c : Char) (t : List Char)
    (h : trimChars l = c :: t) : c.isWhitespace = false := by
  unfold trimChars at h
  have hpre := List.rdropWhile_prefix (p := Char.isWhitespace)
    (l := l.dropWhile Char.isWhitespace)
  rw [h] at hpre
  obtain ⟨s, hs⟩ := hpre
  have hAc : l.dropWhile Char.isWhitespace = c :: (t ++ s) := by
    rw [← hs]; simp
  have hne : l.dropWhile Char.isWhitespace ≠ [] := by rw [hAc]; simp
  have hhead := List.head_dropWhile_not Char.isWhitespace l hne
  have hsome : (l.dropWhile Char.isWhitespace).head? = some c := by
    rw [hAc]; rfl
  have hceq : (l.dropWhile Char.isWhitespace).head hne = c := by
    have := (List.head?_eq_head hne).symm.trans hsome
    exact Option.some.inj this
  rw [hceq] at hhead
  simpa using hhead

theorem trimChars_idem (l : List Char) :
    trimChars (trimChars l) = trimChars l := by
  cases h : trimChars l with
  | nil => simp [trimChars, List.rdropWhile_nil]
  | cons c t =>
    have hc : c.isWhitespace = false := trimChars_head_not_ws l c t h
    have hdw : (c :: t).dropWhile Char.isWhitespace = c :: t := by
      simp [List.dropWhile_cons, hc]
    unfold trimChars
    rw [hdw]
    have hct : (c :: t) = trimChars l := h.symm
    rw [hct]
    unfold trimChars
    exact List.rdropWhile_idempotent _ _

theorem trimChars_of_allDigits (l : List Char) (h : isAllDigits l = true) :
    trimChars l = l := by
  have hnw : ∀ x ∈ l, x.isWhitespace = false := by
    intro x hx
    exact digit_not_whitespace x (by
      simp only [isAllDigits, List.all_eq_true] at h
      exact h x hx)
  unfold trimChars
  have h1 : l.dropWhile Char.isWhitespace = l := by
    cases l with
    | nil => simp
    | cons a t =>
      have := hnw a (by simp)
      simp [List.dropWhile_cons, this]
  rw [h1]
  rw [List.rdropWhile_eq_self_iff]
  intro hl
  have := hnw (l.getLast hl) (List.getLast_mem hl)
  simp [this]

end TrimLemmas

namespace RequestExecutor

open JsPrim

/-- A value rejected by `fetch` inside `fetchWithTimeout`: a JavaScript
`Error` carrying `name` and `message` (timeout aborts reject with an
`AbortError`; connection-level failures with a TypeError whose message
mentions fetch), or any non-`Error` thrown value. -/
inductive ThrownValue
  | jsError (name message : String)
  | nonErrorValue
deriving DecidableEq, Repr

/-- The outcome of one attempt of `fetchWithTimeout`: `fetch` either
resolves with an HTTP response (of any status — 4xx/5xx responses
resolve, they do not reject) or rejects with a thrown value. -/
inductive FetchOutcome (R : Type)
  | ok (r : R)
  | err (e : ThrownValue)

/-- Function `shouldRetry` from `src/api/apiClient.ts`: retry only Error values
whose `name` is `AbortError` or whose message contains `fetch`. -/
def shouldRetry : ThrownValue → Bool
  | .jsError name message => name == "AbortError" || strIncludes message "fetch"
  | .nonErrorValue => false

/-- Observable trace of one call of `makeRequestWithRetries`: the final
result, the number of `fetchWithTimeout` attempts issued, and the list of
backoff delays (in milliseconds) awaited between attempts. -/
structure RetryRun (R : Type) where
  result : Except ThrownValue R
  attempts : Nat
  delays : List Nat

/-- Function `makeRequestWithRetries` from `src/api/apiClient.ts`.  The network is
an oracle giving the outcome of the attempt at each value of the
`retries` counter; `cfgRetries` is `config.retries`.  On an exception the
call retries — after `await delay(Math.pow(2, retries) * 1000)` — exactly
when `retries < config.retries` and `shouldRetry error`; a resolved
response (any HTTP status) is returned immediately. -/
def makeRequestWithRetries {R : Type} (oracle : Nat → FetchOutcome R)
    (cfgRetries : Nat) (retries : Nat) : RetryRun R :=
  match oracle retries with
  | .ok r => ⟨.ok r, 1, []⟩
  | .err e =>
    if h : retries < cfgRetries ∧ shouldRetry e = true then
      let rest := makeRequestWithRetries oracle cfgRetries (retries + 1)
      ⟨rest.result, rest.attempts + 1, (2 ^ retries * 1000) :: rest.delays⟩
    else
      ⟨.error e, 1, []⟩
termination_by cfgRetries - retries
decreasing_by
  obtain ⟨h1, -⟩ := h
  omega

end RequestExecutor

namespace ScanOrchestrator

open JsPrim

/-- The `data` payload of `ProcessScanResult` (`src/api/types.ts`). -/
structure ScanResultData where
  codigo : String
  tipo : String
  ubicacion : String
  estado : String
  timestamp : String
deriving DecidableEq, Repr

/-- Structure `ProcessScanResult` from `src/api/types.ts`. -/
structure ProcessScanResult where
  success : Bool
  message : String
  data : Option ScanResultData := none
deriving DecidableEq, Repr

/-- Structure `ProcessScanRequest` from `src/api/types.ts`. -/
structure ProcessScanRequest where
  codigo : String
  ubicacion : String
  tipo : Option String := none
  palletCodigo : Option String := none
  scannedCodes : Option String := none
deriving DecidableEq, Repr

/-- The React state owned by `ScanProvider` (`src/context/ScanContext.tsx`):
`data`, `loading`, `error` and `history`. -/
structure ScanState where
  data : Option ProcessScanResult := none
  loading : Bool := false
  error : Option String := none
  history : List ProcessScanResult := []
deriving DecidableEq, Repr

/-- The duplicate test of the history updater in `processScan`:
`item.data?.codigo === result.data?.codigo &&
 item.data?.timestamp === result.data?.timestamp` for some existing item
(optional chaining: two absent payloads compare equal). -/
def isDupScan (result : ProcessScanResult) (prev : List ProcessScanResult) : Bool :=
  prev.any fun item =>
    (item.data.map (·.codigo) == result.data.map (·.codigo)) &&
    (item.data.map (·.timestamp) == result.data.map (·.timestamp))

/-- The updater passed to `setHistory` in `processScan`
(`src/context/ScanContext.tsx` lines 47-54): keep the previous list when
the result is a duplicate, else prepend it to the first 19 previous
entries (`[result, ...prev.slice(0, 19)]`). -/
def historyUpdate (result : ProcessScanResult) (prev : List ProcessScanResult) :
    List ProcessScanResult :=
  if isDupScan result prev then prev else result :: prev.take 19

/-- What the synchronous prefix of `processScan` decides before any
`await`: reject on blank `codigo`, reject on blank `ubicacion`, or issue
the `submitScan` network call. -/
inductive StartOutcome
  | rejectedCodigo
  | rejectedUbicacion
  | callIssued
deriving DecidableEq, Repr

/-- The synchronous prefix of `processScan` (`src/context/ScanContext.tsx`
lines 27-40): the two blank-input guards, then `setLoading(true)` /
`setError(null)` and the `submitScan` call.  There is no other guard
before the network call. -/
def processScanStart (st : ScanState) (req : ProcessScanRequest) :
    ScanState × StartOutcome :=
  if (trimChars req.codigo.data).isEmpty then
    ({ st with error := some "El código es requerido" }, .rejectedCodigo)
  else if (trimChars req.ubicacion.data).isEmpty then
    ({ st with error := some "La ubicación es requerida" }, .rejectedUbicacion)
  else
    ({ st with loading := true, error := none }, .callIssued)

/-- The continuation of `processScan` after `submitScan` settles
(`src/context/ScanContext.tsx` lines 41-65): on success store the result
and update the history; on failure store the translated message and clear
`data`; in both cases `setLoading(false)`. -/
def processScanResolve (st : ScanState) (outcome : Except String ProcessScanResult) :
    ScanState :=
  match outcome with
  | .ok result =>
    { st with data := some result,
              history := historyUpdate result st.history,
              loading := false }
  | .error msg =>
    { st with error := some msg, data := none, loading := false }

end ScanOrchestrator

namespace Normalizer

open JsPrim

/-- The value of a `status` key in a response body: a string, or a value
of some other type (the typeof-string test fails). -/
inductive StatusField
  | str (s : String)
  | nonStr
deriving DecidableEq, Repr

/-- The shape of an object-valued `error` key:
`{ code?, message?, field?, suggestion?, details? }`. -/
structure ErrObjShape where
  code : Option String := none
  message : Option String := none
  field : Option String := none
  suggestion : Option String := none
  details : Option String := none
deriving DecidableEq, Repr

/-- The value of an `error` key: an object or a string (the legacy
envelope allows `error: { code, message } | string`). -/
inductive ErrField
  | obj (o : ErrObjShape)
  | str (s : String)
deriving DecidableEq, Repr

/-- The value of a `success` key: a boolean, or a value of another type
(only `success === false` is treated as failure). -/
inductive SuccessField
  | boolv (b : Bool)
  | nonBool
deriving DecidableEq, Repr

/-- A parsed response body as probed by `processResponse`: a JSON object
(only the keys the normalizer inspects are modelled: `status`, `error`,
`message`, `success`, `data`, `meta` — `meta` only for presence), a
string (JSON string or a non-JSON text body), `null`, or another
primitive. -/
inductive BodyVal
  | obj (status : Option StatusField) (error : Option ErrField)
        (message : Option String) (success : Option SuccessField)
        (dataF : Option BodyVal) (meta : Bool)
  | str (s : String)
  | nullv
  | prim

/-- The `code` argument of `ApiClientError`: a string or a number. -/
inductive ErrCodeV
  | str (s : String)
  | num (n : Nat)
deriving DecidableEq, Repr

/-- The `details` argument of `ApiClientError`: the enriched object
`{...responseData, field, suggestion, details}`, a raw body value, or the
parse-failure payload. -/
inductive DetailsV
  | enriched (body : BodyVal) (field suggestion details : Option String)
  | bodyVal (body : BodyVal)

/-- An `ApiClientError` as thrown by `processResponse`. -/
structure ApiClientErrorV where
  message : String
  code : ErrCodeV
  details : DetailsV

/-- A value returned by `processResponse`: either the body returned as-is
(`return data as ApiResponse<T>`) or a constructed
`{ success: true, data, message }` envelope. -/
inductive RetVal
  | raw (b : BodyVal)
  | envelope (data : Option BodyVal) (message : Option String)

/-- Result of `processResponse`: a returned value or a thrown
`ApiClientError`. -/
inductive ProcResult
  | ret (v : RetVal)
  | thrown (e : ApiClientErrorV)

/-- JavaScript `c || response.status || fallback` for a possibly absent
string code `c` and a numeric status (0 is falsy). -/
def codeOr (c : Option String) (status : Nat) (fallback : String) : ErrCodeV :=
  match c with
  | some s =>
    if s = "" then (if status = 0 then .str fallback else .num status)
    else .str s
  | none => if status = 0 then .str fallback else .num status

/-- JavaScript `c || errorCode` where `errorCode` currently holds the
numeric `response.status`. -/
def codeOrStatus (c : Option String) (status : Nat) : ErrCodeV :=
  match c with
  | some s => if s = "" then .num status else .str s
  | none => .num status

/-- The object-valued `error` field of a body object, when there is one
(the `error` field probed with a typeof-object test; a string-valued or
absent `error` yields no object, so property access on the
or-else-empty-object expression gives `undefined`). -/
def errObjOf : Option ErrField → Option ErrObjShape
  | some (.obj o) => some o
  | _ => none

/-- The unified- and legacy-envelope handling of `processResponse`
(`src/api/apiClient.ts` lines 386-460), run before the HTTP-status check:
`some` when this block returns or throws, `none` when control falls
through. -/
def envelopeStep (resStatus : Nat) (data : BodyVal) : Option ProcResult :=
  match data with
  | .obj status error message success dataF meta =>
    let unified : Option ProcResult :=
      match status with
      | some (.str st) =>
        if st = "fail" ∨ st = "error" then
          let eObj := errObjOf error
          some (.thrown
            { message := jsOrStr (jsOrOpt (eObj.bind (·.message)) message) "Error desconocido",
              code := codeOr (eObj.bind (·.code)) resStatus "UNKNOWN_ERROR",
              details := .enriched data (eObj.bind (·.field))
                (eObj.bind (·.suggestion)) (eObj.bind (·.details)) })
        else if st = "success" then
          some (.ret (.envelope dataF message))
        else none
      | _ => none
    match unified with
    | some r => some r
    | none =>
      if success.isSome || (errObjOf error).isSome || meta then
        match errObjOf error with
        | some o =>
          if jsTruthy o.message then
            some (.thrown
              { message := jsOrStr (jsOrOpt o.message message) "Error desconocido",
                code := codeOr o.code resStatus "UNKNOWN_ERROR",
                details := .bodyVal data })
          else if success = some (.boolv false) then
            some (.thrown
              { message := jsOrStr (jsOrOpt o.message message) "Operación fallida",
                code := codeOr o.code resStatus "OPERATION_FAILED",
                details := .bodyVal data })
          else some (.ret (.envelope dataF message))
        | none =>
          if success = some (.boolv false) then
            some (.thrown
              { message := jsOrStr message "Operación fallida",
                code := codeOr none resStatus "OPERATION_FAILED",
                details := .bodyVal data })
          else some (.ret (.envelope dataF message))
      else none
  | _ => none

/-- The per-status messages of the `switch (response.status)` in the
HTTP-error branch of `processResponse`. -/
def mappedStatusMsg (status : Nat) (current : String) : String :=
  if status = 404 then "Endpoint no encontrado - verifica la configuración de la API"
  else if status = 405 then "Método no permitido - el endpoint no soporta esta operación"
  else if status = 500 then "Error interno del servidor - contacta al administrador"
  else if status = 503 then "Servicio no disponible - intenta nuevamente más tarde"
  else current

/-- The HTTP-error branch of `processResponse` (`src/api/apiClient.ts`
lines 462-516), reached when the body matched no envelope and
`response.ok` is false. -/
def httpErrorStep (resStatus : Nat) (resStatusText : String) (data : BodyVal) :
    ProcResult :=
  let defaultMsg := "Error " ++ toString resStatus ++ ": " ++ resStatusText
  let probe : String × ErrCodeV × Option DetailsV :=
    match data with
    | .obj _ error message _ _ _ =>
      match errObjOf error with
      | some o =>
        (jsOrStr (jsOrOpt o.message message) defaultMsg,
         codeOrStatus o.code resStatus,
         some (.enriched data o.field o.suggestion o.details))
      | none =>
        if jsTruthy message then
          (jsOrStr message defaultMsg, .num resStatus, none)
        else (defaultMsg, .num resStatus, none)
    | _ => (defaultMsg, .num resStatus, none)
  let msg2 :=
    if strIncludes probe.1 "Error " then mappedStatusMsg resStatus probe.1
    else probe.1
  .thrown { message := msg2, code := probe.2.1,
            details := (probe.2.2).getD (.bodyVal data) }

/-- The final normalization for successful responses whose body matched
no envelope (`src/api/apiClient.ts` lines 518-536): objects without a
`success` or `data` key are wrapped, everything else is returned as-is. -/
def finalStep (data : BodyVal) : ProcResult :=
  match data with
  | .obj status error message success dataF meta =>
    if success.isSome || dataF.isSome then
      .ret (.raw (.obj status error message success dataF meta))
    else
      .ret (.envelope (some (.obj status error message success dataF meta))
        (some (jsOrStr message "Request successful")))
  | b => .ret (.raw b)

/-- Function `processResponse` from `src/api/apiClient.ts` (lines 368-537), given
the response metadata and the already-parsed body: envelope handling
first, then the HTTP-status failure branch, then the passthrough
normalization of unrecognized successful bodies. -/
def processResponse (resOk : Bool) (resStatus : Nat) (resStatusText : String)
    (data : BodyVal) : ProcResult :=
  match envelopeStep resStatus data with
  | some r => r
  | none =>
    if !resOk then httpErrorStep resStatus resStatusText data
    else finalStep data

end Normalizer

namespace ErrTranslator

open JsPrim

/-- Structure `ErrorTranslation` from `src/utils/errorMessages.ts`. -/
structure ErrorTranslation where
  message : String
  suggestion : Option String := none
deriving DecidableEq, Repr

/-- The `ERROR_TRANSLATIONS` table of `src/utils/errorMessages.ts`
(general table, keyed by error code or message pattern), in source
order. -/
def ERROR_TRANSLATIONS : List (String × ErrorTranslation) := [
  ("NETWORK_ERROR",
   { message := "Error de conexión con el servidor",
     suggestion := some "Verifica tu conexión a internet e intenta nuevamente" }),
  ("TIMEOUT_ERROR",
   { message := "Tiempo de espera agotado",
     suggestion := some "La petición tardó demasiado. Intenta nuevamente" }),
  ("PARSE_ERROR",
   { message := "Error al procesar la respuesta del servidor",
     suggestion := some "Intenta nuevamente. Si el problema persiste, contacta al administrador" }),
  ("VALIDATION_ERROR",
   { message := "Error de validación",
     suggestion := some "Verifica que los datos ingresados sean correctos" }),
  ("INVALID_BOX_CODE",
   { message := "El código de caja debe tener exactamente 16 dígitos",
     suggestion := some "Verifica que hayas escaneado el código completo" }),
  ("INVALID_PALLET_CODE",
   { message := "El código de tarja debe tener exactamente 14 dígitos",
     suggestion := some "Verifica que hayas escaneado el código completo" }),
  ("INVALID_LOCATION",
   { message := "La ubicación proporcionada no es válida",
     suggestion := some "Verifica que la ubicación sea correcta" }),
  ("INVALID_CALIBRE",
   { message := "El calibre no coincide con lo solicitado",
     suggestion := some "El calibre de la caja/pallet no está en los calibres solicitados para esta venta" }),
  ("BOX_COUNT_EXCEEDED",
   { message := "Excede la cantidad de cajas solicitadas",
     suggestion := some "Has escaneado más cajas de las solicitadas para este calibre. Remueve algunas cajas" }),
  ("EGGS_EXCEEDED",
   { message := "Excede la cantidad de huevos permitida",
     suggestion := some "La cantidad de huevos excede el límite permitido" }),
  ("EGGS_INCOMPLETE",
   { message := "Faltan cajas para completar la venta",
     suggestion := some "Aún faltan cajas por escanear. Continúa escaneando hasta completar todas las cajas solicitadas" }),
  ("NO_REQUESTED_CALIBRES",
   { message := "Esta venta no tiene calibres solicitados",
     suggestion := some "Esta venta no se puede despachar porque no tiene calibres definidos" }),
  ("SALE_NOT_DRAFT",
   { message := "La venta no se puede modificar",
     suggestion := some "Solo se pueden modificar ventas en borrador (DRAFT). Esta venta ya fue confirmada" }),
  ("Box code must be 16 digits",
   { message := "El código de caja debe tener 16 dígitos",
     suggestion := some "Verifica que hayas escaneado correctamente el código" }),
  ("Invalid box code: must be 16 digits",
   { message := "Código de caja inválido: debe tener 16 dígitos",
     suggestion := some "Asegúrate de escanear el código completo" }),
  ("Invalid pallet code: must be 14 digits",
   { message := "Código de pallet inválido: debe tener 14 dígitos",
     suggestion := some "Asegúrate de escanear el código completo de la tarja" }),
  ("NOT_FOUND",
   { message := "No encontrado",
     suggestion := some "Verifica que el código sea correcto" }),
  ("BOX_NOT_FOUND",
   { message := "La caja no fue encontrada en el sistema",
     suggestion := some "El código de caja no existe en el sistema. Verifica que hayas escaneado correctamente" }),
  ("PALLET_NOT_FOUND",
   { message := "La tarja no fue encontrada en el sistema",
     suggestion := some "El código de tarja no existe en el sistema. Verifica que hayas escaneado correctamente" }),
  ("CUSTOMER_NOT_FOUND",
   { message := "El cliente no fue encontrado",
     suggestion := some "El cliente con el ID proporcionado no existe en el sistema" }),
  ("SALE_NOT_FOUND",
   { message := "La venta no fue encontrada",
     suggestion := some "La venta con el ID proporcionado no existe en el sistema" }),
  ("BOX_NOT_IN_SALE",
   { message := "La caja no está en esta venta",
     suggestion := some "Esta caja no está en la venta actual. Verifica el código" }),
  ("PALLET_NOT_IN_SALE",
   { message := "El pallet no está en esta venta",
     suggestion := some "Este pallet no está en la venta actual. Verifica el código" }),
  ("Box not found",
   { message := "Caja no encontrada",
     suggestion := some "El código de caja no existe en el sistema. Verifica que hayas escaneado correctamente" }),
  ("Pallet not found",
   { message := "Tarja no encontrada",
     suggestion := some "El código de tarja no existe en el sistema. Verifica que hayas escaneado correctamente" }),
  ("no fue encontrada",
   { message := "El código no fue encontrado en el sistema",
     suggestion := some "Verifica que el código escaneado sea correcto. Si es una caja nueva, asegúrate de registrarla primero" }),
  ("no fue encontrado",
   { message := "El código no fue encontrado en el sistema",
     suggestion := some "Verifica que el código escaneado sea correcto" }),
  ("CONFLICT",
   { message := "Conflicto en la operación",
     suggestion := some "El recurso ya existe o fue modificado. Intenta actualizar la página" }),
  ("BOX_ALREADY_EXISTS",
   { message := "La caja ya existe en el sistema",
     suggestion := some "Esta caja ya fue registrada anteriormente" }),
  ("BOX_ALREADY_IN_SALE",
   { message := "La caja ya está en esta venta",
     suggestion := some "Esta caja ya fue agregada. Verifica que no hayas escaneado el mismo código dos veces" }),
  ("PALLET_ALREADY_IN_SALE",
   { message := "El pallet ya está en esta venta",
     suggestion := some "Este pallet ya fue agregado. Verifica que no hayas escaneado el mismo código dos veces" }),
  ("CUSTOMER_ALREADY_EXISTS",
   { message := "El cliente ya existe en el sistema",
     suggestion := some "Ya existe un cliente con el email proporcionado" }),
  ("BOX_NOT_IN_BODEGA",
   { message := "La caja no está en BODEGA",
     suggestion := some "Solo se pueden agregar cajas que estén en BODEGA. Verifica la ubicación de la caja" }),
  ("PALLET_NOT_IN_BODEGA",
   { message := "El pallet no está en BODEGA",
     suggestion := some "Solo se pueden agregar pallets que estén en BODEGA. Verifica la ubicación del pallet" }),
  ("PALLET_NO_BOXES_IN_BODEGA",
   { message := "El pallet no tiene cajas en BODEGA",
     suggestion := some "El pallet no tiene cajas disponibles en BODEGA para agregar a la venta" }),
  ("Box with code",
   { message := "La caja ya existe en el sistema",
     suggestion := some "Esta caja ya fue registrada anteriormente" }),
  ("Invalid location",
   { message := "Ubicación inválida",
     suggestion := some "Verifica que la ubicación sea correcta" }),
  ("Cannot move",
   { message := "No se puede mover",
     suggestion := some "La operación de movimiento no es válida para este estado" }),
  ("INTERNAL_ERROR",
   { message := "Error interno del servidor",
     suggestion := some "Ocurrió un error inesperado. Si el problema persiste, contacta al administrador" }),
  ("DATABASE_ERROR",
   { message := "Error de base de datos",
     suggestion := some "Error al acceder a la base de datos. Intenta nuevamente en unos momentos" }),
  ("SERVICE_UNAVAILABLE",
   { message := "Servicio no disponible",
     suggestion := some "El servicio está temporalmente no disponible. Intenta nuevamente más tarde" }),
  ("RATE_LIMIT_EXCEEDED",
   { message := "Demasiadas solicitudes",
     suggestion := some "Has excedido el límite de solicitudes. Por favor, espera unos momentos e intenta nuevamente" }),
  ("THROTTLING_ERROR",
   { message := "Servicio temporalmente sobrecargado",
     suggestion := some "El servicio está temporalmente sobrecargado. Por favor, intente nuevamente" }),
  ("ResourceNotFoundException",
   { message := "Recurso no encontrado",
     suggestion := some "El recurso solicitado no existe en la base de datos" }),
  ("ConditionalCheckFailedException",
   { message := "La operación falló porque el recurso fue modificado",
     suggestion := some "Intenta actualizar la página y vuelve a intentar" }),
  ("ThrottlingException",
   { message := "El servicio está temporalmente sobrecargado",
     suggestion := some "Espera unos segundos e intenta nuevamente" })]

/-- The `CONTEXT_ERROR_MESSAGES` table of `src/utils/errorMessages.ts`:
per-operation-context translations, in source order. -/
def CONTEXT_ERROR_MESSAGES : List (String × List (String × ErrorTranslation)) := [
  ("scan", [
    ("NOT_FOUND",
     { message := "Código no encontrado",
       suggestion := some "El código escaneado no existe en el sistema. Verifica que sea correcto" }),
    ("VALIDATION_ERROR",
     { message := "Código inválido",
       suggestion := some "El formato del código no es válido. Debe ser de 12 dígitos (tarja) o 16 dígitos (caja)" })]),
  ("move", [
    ("NOT_FOUND",
     { message := "No se puede mover: el código no existe",
       suggestion := some "Verifica que el código sea correcto antes de intentar moverlo" }),
    ("VALIDATION_ERROR",
     { message := "No se puede mover: ubicación inválida",
       suggestion := some "Verifica que la ubicación de destino sea válida" })]),
  ("create", [
    ("CONFLICT",
     { message := "El código ya existe",
       suggestion := some "Este código ya fue registrado anteriormente. Verifica que no sea un duplicado" }),
    ("VALIDATION_ERROR",
     { message := "Datos inválidos",
       suggestion := some "Revisa que todos los campos requeridos estén completos y sean válidos" })]),
  ("dispatch", [
    ("SALE_NOT_DRAFT",
     { message := "La venta no se puede modificar",
       suggestion := some "Solo se pueden modificar ventas en borrador (DRAFT). Esta venta ya fue confirmada." }),
    ("NO_REQUESTED_CALIBRES",
     { message := "Esta venta no tiene calibres solicitados",
       suggestion := some "Esta venta no se puede despachar porque no tiene calibres definidos." }),
    ("BOX_ALREADY_IN_SALE",
     { message := "La caja ya está en esta venta",
       suggestion := some "Esta caja ya fue agregada. Verifica que no hayas escaneado el mismo código dos veces." }),
    ("PALLET_ALREADY_IN_SALE",
     { message := "El pallet ya está en esta venta",
       suggestion := some "Este pallet ya fue agregado. Verifica que no hayas escaneado el mismo código dos veces." }),
    ("BOX_NOT_IN_BODEGA",
     { message := "La caja no está en BODEGA",
       suggestion := some "Solo se pueden agregar cajas que estén en BODEGA. Verifica la ubicación de la caja." }),
    ("PALLET_NOT_IN_BODEGA",
     { message := "El pallet no está en BODEGA",
       suggestion := some "Solo se pueden agregar pallets que estén en BODEGA. Verifica la ubicación del pallet." }),
    ("PALLET_NO_BOXES_IN_BODEGA",
     { message := "El pallet no tiene cajas en BODEGA",
       suggestion := some "El pallet no tiene cajas disponibles en BODEGA para agregar a la venta." }),
    ("INVALID_CALIBRE",
     { message := "El calibre no coincide con lo solicitado",
       suggestion := some "El calibre de la caja/pallet no está en los calibres solicitados para esta venta." }),
    ("BOX_COUNT_EXCEEDED",
     { message := "Excede la cantidad de cajas solicitadas",
       suggestion := some "Has escaneado más cajas de las solicitadas para este calibre. Remueve algunas cajas." }),
    ("EGGS_INCOMPLETE",
     { message := "Faltan cajas para completar la venta",
       suggestion := some "Aún faltan cajas por escanear. Continúa escaneando hasta completar todas las cajas solicitadas." }),
    ("BOX_NOT_IN_SALE",
     { message := "La caja no está en esta venta",
       suggestion := some "Esta caja no está en la venta actual. Verifica el código." }),
    ("PALLET_NOT_IN_SALE",
     { message := "El pallet no está en esta venta",
       suggestion := some "Este pallet no está en la venta actual. Verifica el código." })])]

/-- JavaScript object lookup `tbl[key]` on a translation table. -/
def tblGet (tbl : List (String × ErrorTranslation)) (k : String) :
    Option ErrorTranslation :=
  (tbl.find? (fun p => p.1 == k)).map (·.2)

/-- JavaScript object lookup `CONTEXT_ERROR_MESSAGES[context]`. -/
def ctxTblGet (tbl : List (String × List (String × ErrorTranslation))) (k : String) :
    Option (List (String × ErrorTranslation)) :=
  (tbl.find? (fun p => p.1 == k)).map (·.2)

/-- The pattern loop of `translateError`: first entry (in
`Object.entries` order) whose key is contained in, or equal to, the raw
message. -/
def patternFind (tbl : List (String × ErrorTranslation)) (msg : String) :
    Option ErrorTranslation :=
  (tbl.find? (fun p => strIncludes msg p.1 || msg == p.1)).map (·.2)

/-- The `error.details` payload as probed by `translateError`
(only its `suggestion` property is read). -/
structure DetailsSugg where
  suggestion : Option String := none
deriving DecidableEq, Repr

/-- A nested `error` property of a plain error object:
`{ message?, code?, suggestion? }`. -/
structure NestedErrShape where
  message : Option String := none
  code : Option String := none
  suggestion : Option String := none
deriving DecidableEq, Repr

/-- The argument of `translateError`: an `Error` instance (in this code
base an `ApiClientError`, whose own fields are `message`, `code` and
`details`), a plain string, a plain object
(`{ message?, code?, suggestion?, error?, details? }`), or any other
value (`null`, a number, …). -/
inductive ErrInput
  | errObj (message : String) (code : Option String) (details : Option DetailsSugg)
  | strErr (s : String)
  | objErr (message : Option String) (code : Option String)
           (suggestion : Option String) (nested : Option NestedErrShape)
           (details : Option DetailsSugg)
  | otherErr
deriving DecidableEq, Repr

/-- The `errorMessage` extraction at the top of `translateError`. -/
def extractMessage : ErrInput → String
  | .errObj m _ _ => m
  | .strErr s => s
  | .objErr m _ _ nested _ => jsOrStr (jsOrOpt m (nested.bind (·.message))) ""
  | .otherErr => ""

/-- The `errorCode` extraction at the top of `translateError`. -/
def extractCode : ErrInput → String
  | .errObj _ c _ => jsOrStr c ""
  | .strErr _ => ""
  | .objErr _ c _ nested _ => jsOrStr (jsOrOpt c (nested.bind (·.code))) ""
  | .otherErr => ""

/-- The `backendSuggestion` extraction at the top of `translateError`: for an
`Error` instance it is read from `details.suggestion` (when `details` is
set), for a plain object from
`suggestion || error?.suggestion || details?.suggestion`. -/
def extractBackendSuggestion : ErrInput → Option String
  | .errObj _ _ details => details.bind (·.suggestion)
  | .strErr _ => none
  | .objErr _ _ sugg nested details =>
      jsOrOpt sugg (jsOrOpt (nested.bind (·.suggestion)) (details.bind (·.suggestion)))
  | .otherErr => none

/-- The diacritics class of the `isSpanishMessage` regex. -/
def spanishChars : List Char := "áéíóúñüÁÉÍÓÚÑÜ".data

/-- The `isSpanishMessage` test: does the message contain a Spanish diacritic. -/
def hasSpanishDiacritic (s : String) : Bool :=
  s.data.any (fun c => spanishChars.contains c)

/-- The `isTechnicalMessage` test from the heuristic fallback of
`translateError`. -/
def isTechnicalMessage (s : String) : Bool :=
  strIncludes s "Exception" || strIncludes s "Error:" ||
    strIncludes s "code:" || "Error ".data.isPrefixOf s.data

/-- First replace of the cleanup: strip a leading `Error <digits>: `. -/
def stripLeadErrorNum (l : List Char) : List Char :=
  if "Error ".data.isPrefixOf l then
    let rest := l.drop 6
    let ds := rest.takeWhile Char.isDigit
    if ds.isEmpty then l
    else
      match rest.drop ds.length with
      | ':' :: ' ' :: r => r
      | _ => l
  else l

/-- Scan for the earliest `] ` (a `]` immediately followed by a space),
with `.` of the regex not crossing a newline. -/
def dropThroughBracketSpace : List Char → Option (List Char)
  | [] => none
  | ']' :: ' ' :: r => some r
  | '\n' :: _ => none
  | _ :: t => dropThroughBracketSpace t

/-- Second replace of the cleanup: strip a leading bracketed tag, up to
the earliest `] `. -/
def stripLeadBracket (l : List Char) : List Char :=
  match l with
  | '[' :: rest =>
    match dropThroughBracketSpace rest with
    | some r => r
    | none => l
  | _ => l

/-- Third replace of the cleanup: remove every (left-to-right,
non-overlapping) occurrence of `Error:`.  When the 6-character pattern
matches, the head and five further characters are skipped; the second
match arm is unreachable then. -/
def removeErrorColon : List Char → List Char
  | [] => []
  | c :: t =>
    if "Error:".data.isPrefixOf (c :: t) then
      match t with
      | _ :: _ :: _ :: _ :: _ :: r => removeErrorColon r
      | _ => []
    else c :: removeErrorColon t

/-- The `friendlyMessage` computation of the final fallback of
`translateError`: strip the technical prefixes, trim, and re-prefix
`Error: ` when the result still looks technical. -/
def cleanTechnicalMessage (m : String) : String :=
  let friendly := String.mk
    (trimChars (removeErrorColon (stripLeadBracket (stripLeadErrorNum m.data))))
  if strIncludes friendly "Exception" || strIncludes friendly "Error:" then
    "Error: " ++ friendly
  else friendly

/-- Function `translateError` from `src/utils/errorMessages.ts` (lines 594-710):
context code table, context pattern table, general code table, general
pattern table, Spanish-heuristic passthrough, technical cleanup, final
fallback — returning the `{ message, suggestion }` pair. -/
def translateError (error : ErrInput) (context : Option String) :
    String × Option String :=
  let errorMessage := extractMessage error
  let errorCode := extractCode error
  let backendSuggestion := extractBackendSuggestion error
  let ctxResult : Option (String × Option String) :=
    match context with
    | some ctx =>
      if ctx = "" then none
      else
        match ctxTblGet CONTEXT_ERROR_MESSAGES ctx with
        | some ctxTbl =>
          match (if errorCode = "" then none else tblGet ctxTbl errorCode) with
          | some tr => some (tr.message, jsOrOpt backendSuggestion tr.suggestion)
          | none =>
            match patternFind ctxTbl errorMessage with
            | some tr => some (tr.message, jsOrOpt backendSuggestion tr.suggestion)
            | none => none
        | none => none
    | none => none
  match ctxResult with
  | some r => r
  | none =>
    match (if errorCode = "" then none else tblGet ERROR_TRANSLATIONS errorCode) with
    | some tr => (tr.message, jsOrOpt backendSuggestion tr.suggestion)
    | none =>
      match patternFind ERROR_TRANSLATIONS errorMessage with
      | some tr => (tr.message, jsOrOpt backendSuggestion tr.suggestion)
      | none =>
        if errorMessage = "" then
          ("Ocurrió un error inesperado",
           jsOrOpt backendSuggestion
             (some "Por favor intenta nuevamente o contacta al administrador si el problema persiste"))
        else if hasSpanishDiacritic errorMessage && !(isTechnicalMessage errorMessage) then
          (errorMessage,
           jsOrOpt backendSuggestion (some "Si el problema persiste, contacta al administrador"))
        else
          (cleanTechnicalMessage errorMessage,
           jsOrOpt backendSuggestion (some "Si el problema persiste, contacta al administrador"))

end ErrTranslator

section ScanClaims

open JsPrim ScanOrchestrator

/-- C3 counterexample: with a scan already in flight (`loading = true`), a
second well-formed scan is not rejected — the synchronous prefix of
`processScan` decides to issue the network call, so there is no busy
guard. -/
theorem processScan_busy_not_rejected_cex :
    (ScanState.mk none true none []).loading = true ∧
    (processScanStart (ScanState.mk none true none [])
      (ProcessScanRequest.mk "123456789012345" "BODEGA" none none none)).2 =
        StartOutcome.callIssued := by
  refine ⟨rfl, ?_⟩
  decide

/-- C3 amended: `processScan` has no in-flight guard.  For every state —
in particular while a previous scan is still loading — a submitted scan
proceeds to the `submitScan` network call exactly when its `codigo` and
`ubicacion` are non-blank; the only immediate rejections are the two
blank-input guards. -/
theorem processScan_no_inflight_guard (st : ScanState) (req : ProcessScanRequest) :
    (processScanStart st req).2 = StartOutcome.callIssued ↔
      ((trimChars req.codigo.data).isEmpty = false ∧
       (trimChars req.ubicacion.data).isEmpty = false) := by
  unfold processScanStart
  rcases h1 : (trimChars req.codigo.data).isEmpty with _ | _ <;>
    rcases h2 : (trimChars req.ubicacion.data).isEmpty with _ | _ <;>
      simp [h1, h2]

/-- Witness for C3 amended: a valid request is dispatched even from a
loading state. -/
theorem processScan_no_inflight_guard_witness :
    (processScanStart (ScanState.mk none true none [])
      (ProcessScanRequest.mk "1" "B" none none none)).2 = StartOutcome.callIssued :=
  (processScan_no_inflight_guard _ _).mpr (by decide)

/-- C9: the scan history never exceeds 20 entries, `processScanStart`
never touches it, a non-duplicate successful result is prepended in front
of the first 19 previous entries (most-recent-first, oldest dropped,
surviving entries unchanged and in order), and every update either keeps
the previous list or has that prepend shape. -/
theorem scanHistory_bounded_mostRecentFirst :
    (∀ (st : ScanState) (outcome : Except String ProcessScanResult),
      st.history.length ≤ 20 → (processScanResolve st outcome).history.length ≤ 20)
    ∧ (∀ (st : ScanState) (req : ProcessScanRequest),
      ((processScanStart st req).1).history = st.history)
    ∧ (∀ (result : ProcessScanResult) (prev : List ProcessScanResult),
      isDupScan result prev = false →
        historyUpdate result prev = result :: prev.take 19)
    ∧ (∀ (result : ProcessScanResult) (prev : List ProcessScanResult),
      historyUpdate result prev = prev ∨
        historyUpdate result prev = result :: prev.take 19) := by
  refine ⟨?_, ?_, ?_, ?_⟩
  · intro st outcome h
    cases outcome with
    | error msg => simpa [processScanResolve] using h
    | ok result =>
      simp only [processScanResolve, historyUpdate]
      split
      · simpa using h
      · simp only [List.length_cons, List.length_take]
        omega
  · intro st req
    unfold processScanStart
    split
    · rfl
    · split <;> rfl
  · intro result prev h
    simp [historyUpdate, h]
  · intro result prev
    unfold historyUpdate
    split
    · exact Or.inl rfl
    · exact Or.inr rfl

/-- Witness for C9 at a concrete state and result. -/
theorem scanHistory_bounded_witness :
    (processScanResolve (ScanState.mk none false none [])
      (Except.ok (ProcessScanResult.mk true "ok" none))).history.length ≤ 20 :=
  scanHistory_bounded_mostRecentFirst.1 _ _ (by decide)

/-- C10: a successful scan whose result has the same `data.codigo` and
`data.timestamp` as an existing history entry leaves the history
completely unchanged — nothing is prepended and nothing is dropped. -/
theorem scanHistory_duplicate_unchanged (st : ScanState) (result : ProcessScanResult)
    (h : isDupScan result st.history = true) :
    (processScanResolve st (Except.ok result)).history = st.history := by
  simp [processScanResolve, historyUpdate, h]

/-- Witness for C10: a result differing from a stored entry in its
message but matching its `codigo` and `timestamp` is not re-added. -/
theorem scanHistory_duplicate_unchanged_witness :
    (processScanResolve
      (ScanState.mk none false none
        [ProcessScanResult.mk true "m1"
          (some (ScanResultData.mk "c1" "BOX" "BODEGA" "ok" "t1"))])
      (Except.ok (ProcessScanResult.mk true "m2"
        (some (ScanResultData.mk "c1" "PALLET" "VENTA" "ok" "t1"))))).history =
    [ProcessScanResult.mk true "m1"
      (some (ScanResultData.mk "c1" "BOX" "BODEGA" "ok" "t1"))] :=
  scanHistory_duplicate_unchanged _ _ (by decide)

end ScanClaims

section ClassifierClaims

open JsPrim Classifier

theorem trimChars_nil : trimChars [] = [] := by
  simp [trimChars, List.rdropWhile_nil]

theorem validateScannedCode_of_trim_ne (palletLen : Nat) (code : List Char)
    (h : trimChars code ≠ []) :
    validateScannedCode palletLen code =
      if digitTest 15 (trimChars code) then
        { isValid := true, type := some CodeType.box, errorMessage := none }
      else if digitTest palletLen (trimChars code) then
        { isValid := true, type := some CodeType.pallet, errorMessage := none }
      else
        { isValid := false, type := none,
          errorMessage := some (unrecognizedMsg palletLen) } := by
  have hcode : code ≠ [] := by
    intro hnil
    exact h (by rw [hnil, trimChars_nil])
  have h1 : code.isEmpty = false := by simpa [List.isEmpty_iff] using hcode
  have h2 : (trimChars code).isEmpty = false := by simpa [List.isEmpty_iff] using h
  simp only [validateScannedCode, isValidBoxCode, isValidPalletCode, h1, h2,
    Bool.false_eq_true, if_false, trimChars_idem]

/-- C4 counterexample: the blank input is classified neither as Box nor
as Pallet, yet its validation failure message (`El código es requerido`)
does not name either accepted length, contradicting the claim that every
non-matching input fails with a message naming both lengths. -/
theorem classify_blank_message_cex :
    validateScannedCode 12 [] =
      { isValid := false, type := none,
        errorMessage := some "El código es requerido" } ∧
    strIncludes "El código es requerido" "15" = false ∧
    strIncludes "El código es requerido" "12" = false := by
  decide

/-- C4 amended: for every input whose trimmed form is non-blank,
classification proceeds in fixed priority — the Box length 15 is checked
before the configured Pallet length and the first match is returned: a
trimmed all-digit string of length 15 classifies as Box, one of the
Pallet length classifies as Pallet, and any other non-blank input fails
with the `UNRECOGNIZED` message naming both accepted lengths.  Blank
inputs fail with the required/empty message instead. -/
theorem classify_priority_and_lengths (palletLen : Nat) (code : List Char)
    (hp : palletLen = 12 ∨ palletLen = 14) :
    (digitTest 15 (trimChars code) = true →
      validateScannedCode palletLen code =
        { isValid := true, type := some CodeType.box, errorMessage := none })
    ∧ (digitTest palletLen (trimChars code) = true →
      validateScannedCode palletLen code =
        { isValid := true, type := some CodeType.pallet, errorMessage := none })
    ∧ (trimChars code ≠ [] →
      digitTest 15 (trimChars code) = false →
      digitTest palletLen (trimChars code) = false →
      validateScannedCode palletLen code =
        { isValid := false, type := none,
          errorMessage := some (unrecognizedMsg palletLen) }
      ∧ strIncludes (unrecognizedMsg palletLen) "15" = true
      ∧ strIncludes (unrecognizedMsg palletLen) (toString palletLen) = true) := by
  refine ⟨?_, ?_, ?_⟩
  · intro hbox
    have hne : trimChars code ≠ [] := by
      intro hnil
      rw [hnil] at hbox
      simp [digitTest, isAllDigits] at hbox
    rw [validateScannedCode_of_trim_ne palletLen code hne, if_pos hbox]
  · intro hpal
    have hne : trimChars code ≠ [] := by
      intro hnil
      rw [hnil] at hpal
      rcases hp with hp | hp <;> simp [hp, digitTest, isAllDigits] at hpal
    have hbox : digitTest 15 (trimChars code) = false := by
      simp only [digitTest, Bool.and_eq_true, beq_iff_eq] at hpal
      simp only [digitTest, Bool.and_eq_false_iff]
      left
      rcases hp with hp | hp <;> (rw [hp] at hpal; simp [hpal.1])
    rw [validateScannedCode_of_trim_ne palletLen code hne, if_neg (by simp [hbox]),
        if_pos hpal]
  · intro hne hbox hpal
    refine ⟨?_, ?_, ?_⟩
    · rw [validateScannedCode_of_trim_ne palletLen code hne,
          if_neg (by simp [hbox]), if_neg (by simp [hpal])]
    · rcases hp with hp | hp <;> (rw [hp]; decide)
    · rcases hp with hp | hp <;> (rw [hp]; decide)

/-- Witness for C4 amended: a 15-digit input classifies as Box even with
surrounding whitespace. -/
theorem classify_priority_witness :
    validateScannedCode 12 " 123456789012345 ".data =
      { isValid := true, type := some CodeType.box, errorMessage := none } :=
  (classify_priority_and_lengths 12 _ (Or.inl rfl)).1 (by decide)

/-- C5 counterexample: an input with exactly 15 digit characters among
interleaved separators is rejected by the classifier (for both observed
pallet-length configurations), even though `sanitizeCode` strips it to 15
digits — classification does not strip to digits. -/
theorem classify_no_digit_stripping_cex :
    (sanitizeCode "12345-67890-12345".data).length = 15 ∧
    (validateScannedCode 12 "12345-67890-12345".data).isValid = false ∧
    (validateScannedCode 14 "12345-67890-12345".data).isValid = false := by
  decide

/-- C5 amended: the classifier does not strip the input to digits — the
digit-stripping helper `sanitizeCode` is not consulted by
`validateScannedCode`.  Classification succeeds exactly when the trimmed
raw input consists solely of digits and its full length is an accepted
length (15 for Box, or the configured Pallet length). -/
theorem classify_requires_all_digits (palletLen : Nat) (code : List Char)
    (hp : palletLen = 12 ∨ palletLen = 14) :
    (validateScannedCode palletLen code).isValid = true ↔
      (isAllDigits (trimChars code) = true ∧
        ((trimChars code).length = 15 ∨ (trimChars code).length = palletLen)) := by
  by_cases hne : trimChars code = []
  · constructor
    · intro hv
      exfalso
      by_cases hc : code = []
      · rw [hc] at hv
        simp [validateScannedCode] at hv
      · unfold validateScannedCode at hv
        rw [if_neg (by simpa [List.isEmpty_iff] using hc)] at hv
        simp only at hv
        rw [if_pos (by simpa [List.isEmpty_iff] using hne)] at hv
        simp at hv
    · intro ⟨_, hlen⟩
      exfalso
      rw [hne] at hlen
      rcases hp with hp | hp <;> (rw [hp] at hlen; simp at hlen)
  · rw [validateScannedCode_of_trim_ne palletLen code hne]
    by_cases hbox : digitTest 15 (trimChars code) = true
    · simp only [digitTest, Bool.and_eq_true, beq_iff_eq] at hbox
      simp [hbox.1, hbox.2, digitTest]
    · rw [if_neg (by simpa using hbox)]
      by_cases hpal : digitTest palletLen (trimChars code) = true
      · simp only [digitTest, Bool.and_eq_true, beq_iff_eq] at hpal
        simp [digitTest, hpal.1, hpal.2]
      · rw [if_neg (by simpa using hpal)]
        simp only [digitTest, Bool.and_eq_true, beq_iff_eq] at hbox hpal
        constructor
        · intro hv
          simp at hv
        · intro ⟨hd, hlen⟩
          exfalso
          rcases hlen with hlen | hlen
          · exact hbox ⟨hlen, hd⟩
          · exact hpal ⟨hlen, hd⟩

/-- Witness for C5 amended: a 12-digit all-digit input is accepted under
the 12-digit pallet configuration. -/
theorem classify_requires_all_digits_witness :
    (validateScannedCode 12 "123456789012".data).isValid = true :=
  (classify_requires_all_digits 12 _ (Or.inl rfl)).mpr (by decide)

end ClassifierClaims

section ExecutorClaims

open JsPrim RequestExecutor

theorem mrwr_ok {R : Type} (oracle : Nat → FetchOutcome R) (cfg retries : Nat)
    (r : R) (h : oracle retries = .ok r) :
    makeRequestWithRetries oracle cfg retries = ⟨.ok r, 1, []⟩ := by
  rw [makeRequestWithRetries, h]

theorem mrwr_err_retry {R : Type} (oracle : Nat → FetchOutcome R) (cfg retries : Nat)
    (e : ThrownValue) (h : oracle retries = .err e) (hr : retries < cfg)
    (hs : shouldRetry e = true) :
    makeRequestWithRetries oracle cfg retries =
      ⟨(makeRequestWithRetries oracle cfg (retries + 1)).result,
       (makeRequestWithRetries oracle cfg (retries + 1)).attempts + 1,
       2 ^ retries * 1000 :: (makeRequestWithRetries oracle cfg (retries + 1)).delays⟩ := by
  rw [makeRequestWithRetries, h]
  exact dif_pos ⟨hr, hs⟩

theorem mrwr_err_stop {R : Type} (oracle : Nat → FetchOutcome R) (cfg retries : Nat)
    (e : ThrownValue) (h : oracle retries = .err e)
    (hstop : ¬(retries < cfg ∧ shouldRetry e = true)) :
    makeRequestWithRetries oracle cfg retries = ⟨.error e, 1, []⟩ := by
  rw [makeRequestWithRetries, h]
  exact dif_neg hstop

theorem mrwr_attempts_pos {R : Type} (oracle : Nat → FetchOutcome R)
    (cfg retries : Nat) :
    1 ≤ (makeRequestWithRetries oracle cfg retries).attempts := by
  cases h : oracle retries with
  | ok r => rw [mrwr_ok oracle cfg retries r h]
  | err e =>
    by_cases hc : retries < cfg ∧ shouldRetry e = true
    · rw [mrwr_err_retry oracle cfg retries e h hc.1 hc.2]
      simp
    · rw [mrwr_err_stop oracle cfg retries e h hc]

theorem mrwr_attempts_le {R : Type} (oracle : Nat → FetchOutcome R) (cfg : Nat) :
    ∀ n retries, cfg - retries ≤ n →
      (makeRequestWithRetries oracle cfg retries).attempts ≤ n + 1 := by
  intro n
  induction n with
  | zero =>
    intro retries hfuel
    cases h : oracle retries with
    | ok r =>
      rw [mrwr_ok oracle cfg retries r h]
    | err e =>
      rw [mrwr_err_stop oracle cfg retries e h (by omega)]
  | succ n ih =>
    intro retries hfuel
    cases h : oracle retries with
    | ok r =>
      rw [mrwr_ok oracle cfg retries r h]
      show (1 : Nat) ≤ n + 1 + 1
      omega
    | err e =>
      by_cases hc : retries < cfg ∧ shouldRetry e = true
      · rw [mrwr_err_retry oracle cfg retries e h hc.1 hc.2]
        have := ih (retries + 1) (by omega)
        show (makeRequestWithRetries oracle cfg (retries + 1)).attempts + 1 ≤ n + 1 + 1
        omega
      · rw [mrwr_err_stop oracle cfg retries e h hc]
        show (1 : Nat) ≤ n + 1 + 1
        omega

theorem mrwr_transient_only {R : Type} (oracle : Nat → FetchOutcome R) (cfg : Nat) :
    ∀ n retries j, cfg - retries ≤ n →
      j + 1 < (makeRequestWithRetries oracle cfg retries).attempts →
      ∃ e, oracle (retries + j) = .err e ∧ shouldRetry e = true ∧ retries + j < cfg := by
  intro n
  induction n with
  | zero =>
    intro retries j hfuel hj
    exfalso
    cases h : oracle retries with
    | ok r =>
      rw [mrwr_ok oracle cfg retries r h] at hj
      have hj2 : j + 1 < 1 := hj
      omega
    | err e =>
      rw [mrwr_err_stop oracle cfg retries e h (by omega)] at hj
      have hj2 : j + 1 < 1 := hj
      omega
  | succ n ih =>
    intro retries j hfuel hj
    cases h : oracle retries with
    | ok r =>
      rw [mrwr_ok oracle cfg retries r h] at hj
      have hj2 : j + 1 < 1 := hj
      omega
    | err e =>
      by_cases hc : retries < cfg ∧ shouldRetry e = true
      · rw [mrwr_err_retry oracle cfg retries e h hc.1 hc.2] at hj
        have hj2 : j + 1 < (makeRequestWithRetries oracle cfg (retries + 1)).attempts + 1 := hj
        cases j with
        | zero => exact ⟨e, by simpa using h, hc.2, by omega⟩
        | succ j =>
          have := ih (retries + 1) j (by omega) (by omega)
          obtain ⟨e2, he2, hs2, hlt2⟩ := this
          exact ⟨e2, by rw [show retries + (j + 1) = retries + 1 + j by omega]; exact he2,
                 hs2, by omega⟩
      · rw [mrwr_err_stop oracle cfg retries e h hc] at hj
        have hj2 : j + 1 < 1 := hj
        omega

theorem mrwr_delays_shape {R : Type} (oracle : Nat → FetchOutcome R) (cfg : Nat) :
    ∀ n retries, cfg - retries ≤ n →
      (makeRequestWithRetries oracle cfg retries).delays =
        (List.range' retries ((makeRequestWithRetries oracle cfg retries).attempts - 1)).map
          (fun k => 2 ^ k * 1000) := by
  intro n
  induction n with
  | zero =>
    intro retries hfuel
    cases h : oracle retries with
    | ok r => rw [mrwr_ok oracle cfg retries r h]; rfl
    | err e =>
      rw [mrwr_err_stop oracle cfg retries e h (by omega)]
      rfl
  | succ n ih =>
    intro retries hfuel
    cases h : oracle retries with
    | ok r => rw [mrwr_ok oracle cfg retries r h]; rfl
    | err e =>
      by_cases hc : retries < cfg ∧ shouldRetry e = true
      · rw [mrwr_err_retry oracle cfg retries e h hc.1 hc.2]
        have hpos := mrwr_attempts_pos oracle cfg (retries + 1)
        show 2 ^ retries * 1000 :: (makeRequestWithRetries oracle cfg (retries + 1)).delays =
          (List.range' retries
            ((makeRequestWithRetries oracle cfg (retries + 1)).attempts + 1 - 1)).map
            (fun k => 2 ^ k * 1000)
        rw [ih (retries + 1) (by omega)]
        rw [show (makeRequestWithRetries oracle cfg (retries + 1)).attempts + 1 - 1 =
          ((makeRequestWithRetries oracle cfg (retries + 1)).attempts - 1) + 1 from by omega]
        rw [List.range'_succ]
        rfl
      · rw [mrwr_err_stop oracle cfg retries e h hc]
        rfl

/-- C1: for every network behaviour and retry configuration, the executor
issues at most `config.retries + 1` attempts of `fetchWithTimeout`; every
attempt that is followed by another one failed with a thrown value whose
classification (`shouldRetry`: abort/timeout, or a connection-level
message mentioning fetch) is transient; and whenever an attempt resolves
with an HTTP response — in particular an application-level 4xx/5xx
response carrying a structured error body — the run stops there and no
further attempt is made. -/
theorem requestExecutor_retry_policy {R : Type} (oracle : Nat → FetchOutcome R)
    (cfg : Nat) :
    (makeRequestWithRetries oracle cfg 0).attempts ≤ cfg + 1
    ∧ (∀ j, j + 1 < (makeRequestWithRetries oracle cfg 0).attempts →
        ∃ e, oracle j = FetchOutcome.err e ∧ shouldRetry e = true)
    ∧ (∀ j (r : R), oracle j = FetchOutcome.ok r →
        (makeRequestWithRetries oracle cfg 0).attempts ≤ j + 1) := by
  refine ⟨mrwr_attempts_le oracle cfg cfg 0 (by omega), ?_, ?_⟩
  · intro j hj
    have := mrwr_transient_only oracle cfg cfg 0 j (by omega) (by simpa using hj)
    obtain ⟨e, he, hs, -⟩ := this
    exact ⟨e, by simpa using he, hs⟩
  · intro j r hok
    by_contra hgt
    have hj : j + 1 < (makeRequestWithRetries oracle cfg 0).attempts := by omega
    have := mrwr_transient_only oracle cfg cfg 0 j (by omega) hj
    obtain ⟨e, he, -, -⟩ := this
    simp only [Nat.zero_add] at he
    rw [hok] at he
    cases he

/-- A concrete network behaviour: a transient abort, then a response. -/
def oracleW : Nat → FetchOutcome Unit :=
  fun n => if n = 0 then .err (.jsError "AbortError" "timeout") else .ok ()

/-- Witness for C1: on a behaviour failing transiently once, the run
stays within the attempt bound and the retried attempt is certified
transient. -/
theorem requestExecutor_retry_policy_witness :
    (makeRequestWithRetries oracleW 3 0).attempts ≤ 3 + 1 ∧
    (∃ e, oracleW 0 = FetchOutcome.err e ∧ shouldRetry e = true) := by
  have h := requestExecutor_retry_policy oracleW 3
  refine ⟨h.1, h.2.1 0 ?_⟩
  have h2 : (makeRequestWithRetries oracleW 3 0).attempts = 2 := by
    rw [mrwr_err_retry oracleW 3 0 (.jsError "AbortError" "timeout") rfl (by omega)
      (by decide)]
    rw [mrwr_ok oracleW 3 1 () rfl]
  omega

/-- C8: the backoff delays awaited during a run are exactly one delay
before each retried attempt and none before the first attempt, the delay
before the n-th retry (n = 1, 2, …) being `2^(n-1) * 1000` milliseconds —
exponential doubling starting at one second, with no cap applied. -/
theorem requestExecutor_backoff_schedule {R : Type} (oracle : Nat → FetchOutcome R)
    (cfg : Nat) :
    (makeRequestWithRetries oracle cfg 0).delays =
      (List.range ((makeRequestWithRetries oracle cfg 0).attempts - 1)).map
        (fun k => 2 ^ k * 1000) := by
  have := mrwr_delays_shape oracle cfg cfg 0 (by omega)
  rw [this, List.range_eq_range']

end ExecutorClaims

section NormalizerClaims

open JsPrim Normalizer

theorem isPrefixOf_append_self (l r : List Char) : l.isPrefixOf (l ++ r) = true := by
  induction l with
  | nil => simp
  | cons c t ih =>
    show ((c == c) && t.isPrefixOf (t ++ r)) = true
    simp [ih]

theorem containsSub_append_left (pat rest : List Char) (h : pat ≠ []) :
    containsSub pat (pat ++ rest) = true := by
  cases pat with
  | nil => exact absurd rfl h
  | cons c t =>
    show ((c :: t).isPrefixOf (c :: (t ++ rest)) || containsSub (c :: t) (t ++ rest)) = true
    have : (c :: t).isPrefixOf (c :: (t ++ rest)) = true :=
      isPrefixOf_append_self (c :: t) rest
    simp [this]

theorem strIncludes_errorSpace (s : String) :
    strIncludes ("Error " ++ s) "Error " = true := by
  unfold strIncludes
  rw [String.data_append]
  exact containsSub_append_left _ _ (by decide)

/-- The condition under which the HTTP-error branch takes no message from
the body: no object-valued `error` key and no truthy top-level
`message`. -/
def noMessageOverride : BodyVal → Bool
  | .obj _ error message _ _ _ => (errObjOf error).isNone && !(jsTruthy message)
  | _ => true

/-- C6 counterexample: a successful response with a non-JSON body
(`"hola"` over `text/plain`) is returned as the raw body, not wrapped in
a `{ success: true, data }` envelope — contradicting the claim that any
non-JSON body is wrapped with the whole body as the data payload. -/
theorem normalize_nonjson_not_wrapped_cex :
    processResponse true 200 "OK" (BodyVal.str "hola") =
      ProcResult.ret (RetVal.raw (BodyVal.str "hola"))
    ∧ ¬ ∃ m, processResponse true 200 "OK" (BodyVal.str "hola") =
        ProcResult.ret (RetVal.envelope (some (BodyVal.str "hola")) m) := by
  refine ⟨rfl, ?_⟩
  rintro ⟨m, hm⟩
  rw [show processResponse true 200 "OK" (BodyVal.str "hola") =
    ProcResult.ret (RetVal.raw (BodyVal.str "hola")) from rfl] at hm
  simp at hm

/-- C6 amended: on a success HTTP status, a JSON object body matching
neither envelope and carrying neither a `success` nor a `data` key is
wrapped as ok with the whole object as data and the default message
`Request successful`; an object carrying a `data` key is returned
as-is; a non-object body (string, null or other primitive) is returned
unchanged — not wrapped. -/
theorem normalize_unrecognized_success (resStatus : Nat) (resStatusText : String) :
    (∀ (status : Option StatusField) (error : Option ErrField)
       (message : Option String) (meta : Bool),
      envelopeStep resStatus (BodyVal.obj status error message none none meta) = none →
      processResponse true resStatus resStatusText
          (BodyVal.obj status error message none none meta) =
        ProcResult.ret (RetVal.envelope
          (some (BodyVal.obj status error message none none meta))
          (some (jsOrStr message "Request successful"))))
    ∧ (∀ (status : Option StatusField) (error : Option ErrField)
         (message : Option String) (dataF : Option BodyVal) (meta : Bool),
      envelopeStep resStatus (BodyVal.obj status error message none dataF meta) = none →
      dataF.isSome = true →
      processResponse true resStatus resStatusText
          (BodyVal.obj status error message none dataF meta) =
        ProcResult.ret (RetVal.raw (BodyVal.obj status error message none dataF meta)))
    ∧ (∀ s : String, processResponse true resStatus resStatusText (BodyVal.str s) =
        ProcResult.ret (RetVal.raw (BodyVal.str s)))
    ∧ (processResponse true resStatus resStatusText BodyVal.nullv =
        ProcResult.ret (RetVal.raw BodyVal.nullv))
    ∧ (processResponse true resStatus resStatusText BodyVal.prim =
        ProcResult.ret (RetVal.raw BodyVal.prim)) := by
  refine ⟨?_, ?_, ?_, ?_, ?_⟩
  · intro status error message meta hstep
    simp [processResponse, hstep, finalStep]
  · intro status error message dataF meta hstep hdata
    simp [processResponse, hstep, finalStep, hdata]
  · intro s
    rfl
  · rfl
  · rfl

/-- Witness for C6 amended: an unrecognized object body is wrapped with
the default message. -/
theorem normalize_unrecognized_success_witness :
    processResponse true 200 "OK" (BodyVal.obj none none none none none false) =
      ProcResult.ret (RetVal.envelope
        (some (BodyVal.obj none none none none none false))
        (some "Request successful")) :=
  (normalize_unrecognized_success 200 "OK").1 none none none false rfl

/-- C7 counterexample: an HTTP 404 whose body carries no structured error
— only a bare `message` key — surfaces that body message (`"oops"`), not
the specific mapped text for 404, contradicting the claim that every
unstructured HTTP-level failure gets the status-mapped message. -/
theorem normalize_http_error_message_cex :
    processResponse false 404 "Not Found"
        (BodyVal.obj none none (some "oops") none none false) =
      ProcResult.thrown
        { message := "oops", code := ErrCodeV.num 404,
          details := DetailsV.bodyVal
            (BodyVal.obj none none (some "oops") none none false) }
    ∧ "oops" ≠ "Endpoint no encontrado - verifica la configuración de la API" := by
  exact ⟨rfl, by decide⟩

/-- C7 amended: for a response with a failure HTTP status whose body
matches no envelope and supplies no message of its own (no object-valued
`error` and no truthy `message`), the normalizer throws a failure whose
message is the specific mapped text for 404, 405, 500 and 503 and the
generic `Error N: statusText` otherwise, and which carries the numeric
status as its error code. -/
theorem normalize_http_error_mapped (resStatus : Nat) (resStatusText : String)
    (data : BodyVal) (hstep : envelopeStep resStatus data = none)
    (hnoov : noMessageOverride data = true) :
    processResponse false resStatus resStatusText data =
      ProcResult.thrown
        { message := mappedStatusMsg resStatus
            ("Error " ++ toString resStatus ++ ": " ++ resStatusText),
          code := ErrCodeV.num resStatus,
          details := DetailsV.bodyVal data } := by
  have hinc : strIncludes ("Error " ++ toString resStatus ++ ": " ++ resStatusText)
      "Error " = true := by
    rw [String.append_assoc, String.append_assoc]
    exact strIncludes_errorSpace _
  cases data with
  | obj status error message success dataF meta =>
    simp only [noMessageOverride, Bool.and_eq_true, Option.isNone_iff_eq_none,
      Bool.not_eq_true', Bool.not_eq_eq_eq_not, Bool.not_true] at hnoov
    simp [processResponse, hstep, httpErrorStep, hnoov.1, hnoov.2, hinc]
  | str s => simp [processResponse, hstep, httpErrorStep, hinc]
  | nullv => simp [processResponse, hstep, httpErrorStep, hinc]
  | prim => simp [processResponse, hstep, httpErrorStep, hinc]

/-- Witness for C7 amended: a bodyless 404 maps to the endpoint-missing
message with code 404. -/
theorem normalize_http_error_mapped_witness :
    processResponse false 404 "Not Found" BodyVal.nullv =
      ProcResult.thrown
        { message := "Endpoint no encontrado - verifica la configuración de la API",
          code := ErrCodeV.num 404, details := DetailsV.bodyVal BodyVal.nullv } :=
  normalize_http_error_mapped 404 "Not Found" BodyVal.nullv rfl rfl

end NormalizerClaims

section TranslatorClaims

open JsPrim ErrTranslator

theorem jsOrOpt_some_ne (s : String) (b : Option String) (h : s ≠ "") :
    jsOrOpt (some s) b = some s := by
  simp [jsOrOpt, h]

/-- C2: whenever the error value carries a backend-supplied suggestion
(directly on the error object, on its nested `error`, or on its
`details`), the pair returned by `translateError` contains that backend
suggestion — in every resolution branch (context code table, context
pattern table, general code table, general pattern table, Spanish
heuristic, technical cleanup, and final fallback) the locally configured
suggestion is only a fallback. -/
theorem translate_backend_suggestion_wins (e : ErrInput) (ctx : Option String)
    (s : String) (hs : extractBackendSuggestion e = some s) (hne : s ≠ "") :
    (translateError e ctx).2 = some s := by
  unfold translateError
  rw [hs]
  simp only [jsOrOpt_some_ne s _ hne]
  split
  · rename_i r heq
    repeat' split at heq
    all_goals try simp_all
    all_goals subst heq; rfl
  · (repeat' split) <;> rfl

/-- Witness for C2: a backend suggestion on a structured scan error
overrides the locally configured suggestion of the `scan` NOT_FOUND
entry. -/
theorem translate_backend_suggestion_wins_witness :
    extractBackendSuggestion
        (ErrInput.objErr none (some "NOT_FOUND") (some "usa otro código") none none) =
      some "usa otro código" ∧
    (translateError
        (ErrInput.objErr none (some "NOT_FOUND") (some "usa otro código") none none)
        (some "scan")).2 = some "usa otro código" :=
  ⟨by decide, translate_backend_suggestion_wins _ _ _ (by decide) (by decide)⟩

end TranslatorClaims
